import Mathlib

/-!
Verification of the VoiceAgent repository: a shallow embedding of the
booking-field extraction and confirmation logic of `app/llm.py`, the
`BookingData` record of `core/prompt.py`, the `ConversationRecorder`
capture/flush/merge pipeline of `core/audio_recorder.py`, and the
text-to-speech result handling of `app/tts.py` / `main.py`, together
with theorems settling the specification claims.
-/

namespace VoiceAgent

/-! ## Python string primitives

Helpers mirroring the Python string operations the source uses:
`str.lower`, `str.title`, `str.strip`, `str.split`, `len`, slicing,
substring containment (`in`), and `str.startswith`.  All are written as
structural recursions over the character list of the string so that the
kernel can evaluate them on concrete inputs; all source inputs are
ASCII. -/

/-- Python `str.lower()` (ASCII). -/
def toLowerStr (s : String) : String := ⟨s.data.map Char.toLower⟩

/-- Decides whether `n` is a prefix of `h` (character lists). -/
def listPre : List Char → List Char → Bool
  | [], _ => true
  | _ :: _, [] => false
  | a :: as, b :: bs => a == b && listPre as bs

/-- Decides whether `n` occurs contiguously inside `h` (character lists). -/
def listSub (n : List Char) : List Char → Bool
  | [] => n.isEmpty
  | h :: hs => listPre n (h :: hs) || listSub n hs

/-- Python `needle in hay` substring containment. -/
def strHas (hay needle : String) : Bool := listSub needle.data hay.data

/-- Python `s.startswith(p)`. -/
def strStarts (s p : String) : Bool := listPre p.data s.data

/-- Python `len(s)` (character count). -/
def strLen (s : String) : Nat := s.data.length

/-- Python `s[n:]` (character slicing). -/
def strDropN (s : String) (n : Nat) : String := ⟨s.data.drop n⟩

/-- Python `s.strip()`: drop whitespace from both ends. -/
def trimStr (s : String) : String :=
  ⟨((s.data.dropWhile Char.isWhitespace).reverse.dropWhile Char.isWhitespace).reverse⟩

/-- Helper for `pyTitle`: the boolean records whether the previous character
was alphabetic. -/
def titleAux : Bool → List Char → List Char
  | _, [] => []
  | prevAlpha, c :: cs =>
    if c.isAlpha then
      (if prevAlpha then c.toLower else c.toUpper) :: titleAux true cs
    else c :: titleAux false cs

/-- Python `str.title()` (ASCII): uppercase the first letter of every
maximal alphabetic run, lowercase the rest. -/
def pyTitle (s : String) : String := ⟨titleAux false s.data⟩

/-- Helper for `pySplit`: the accumulator holds the current word reversed. -/
def splitWsAux : List Char → List Char → List String
  | [], acc => if acc.isEmpty then [] else [⟨acc.reverse⟩]
  | c :: cs, acc =>
    if c.isWhitespace then
      (if acc.isEmpty then splitWsAux cs [] else ⟨acc.reverse⟩ :: splitWsAux cs [])
    else splitWsAux cs (c :: acc)

/-- Python `str.split()` with no argument: split on whitespace runs,
dropping empty pieces. -/
def pySplit (s : String) : List String := splitWsAux s.data []

/-- Python `" ".join(parts)` and friends. -/
def joinWith (sep : String) : List String → String
  | [] => ""
  | [x] => x
  | x :: y :: rest => ⟨x.data ++ sep.data ++ (joinWith sep (y :: rest)).data⟩

/-- Python truthiness of an optional string: `None` and `""` are falsy.
The source guards several updates with `if not self.booking_data.<field>`. -/
def optFalsy : Option String → Bool
  | none => true
  | some s => s == ""

/-- Length of the stored string, `0` when unset: Python
`len(self.booking_data.<field> or "")`. -/
def optLen (o : Option String) : Nat := strLen (o.getD "")

/-! ## Calendar dates

`_extract_booking_info` calls `datetime.now()`, adds `timedelta(days=k)`
and formats with `strftime("%Y-%m-%d")`. We model the wall clock as an
explicit `Date` value in the extraction environment and reimplement
Gregorian day arithmetic and the zero-padded ISO rendering.
-/

/-- A Gregorian calendar date. -/
structure Date where
  year : Nat
  month : Nat
  day : Nat
deriving DecidableEq

/-- Gregorian leap-year rule. -/
def isLeap (y : Nat) : Bool := y % 4 == 0 && (y % 100 != 0 || y % 400 == 0)

/-- Number of days of month `m` in year `y`. -/
def daysInMonth (y m : Nat) : Nat :=
  if m == 2 then (if isLeap y then 29 else 28)
  else if m == 4 || m == 6 || m == 9 || m == 11 then 30
  else 31

/-- The following calendar day. -/
def nextDay (d : Date) : Date :=
  if d.day < daysInMonth d.year d.month then ⟨d.year, d.month, d.day + 1⟩
  else if d.month < 12 then ⟨d.year, d.month + 1, 1⟩
  else ⟨d.year + 1, 1, 1⟩

/-- Python `datetime + timedelta(days=n)`. -/
def addDays (d : Date) : Nat → Date
  | 0 => d
  | n + 1 => addDays (nextDay d) n

/-- Left-pad a numeral string with zeros to width `w`. -/
def padZeros (w : Nat) (s : String) : String :=
  ⟨List.replicate (w - strLen s) '0' ++ s.data⟩

/-- Python `strftime("%Y-%m-%d")`. -/
def toISO (d : Date) : String :=
  padZeros 4 (toString d.year) ++ "-" ++ padZeros 2 (toString d.month) ++ "-" ++
    padZeros 2 (toString d.day)

/-! ## BookingData (`core/prompt.py`)

`BookingData.__init__` creates exactly these attributes; the extraction
code mutates only `pickup_location`, `drop_location`, `vehicle_type`,
`body_type`, `goods_type`, `trip_date` and `confirmation_status`, and
`update_field` refuses names that are not existing attributes
(`hasattr` guard), so the attribute set of every reachable object is
exactly the one laid down here. `confirmation_status` is kept as the
literal Python string. -/
structure BookingData where
  customer_name : String := "Lokesh"
  contact : String := "9066542031"
  lead_source : Option String := none
  pickup_location : Option String := none
  drop_location : Option String := none
  vehicle_type : Option String := none
  body_type : Option String := none
  goods_type : Option String := none
  trip_date : Option String := none
  confirmation_status : String := "pending"
deriving DecidableEq

/-- The record as `BookingData()` constructs it at call start. -/
def initBooking : BookingData := {}

/-! ## Extraction environment

`_extract_booking_info` calls two external engines besides plain string
operations: `re.search` (four fixed patterns, run over the lowercased
text) and the `fuzzywuzzy` scorers.  Their results for the utterance at
hand are supplied as an explicit environment: the captured groups of
each pattern (`none` when the pattern does not match) and the two score
functions (`fuzz.partial_ratio` as `scoreSub`, `fuzz.ratio` as
`scoreFull`, both `0..100`), plus the current wall-clock date. -/
structure ExtractEnv where
  /-- groups of `from_to_pattern` (`from X to Y`), over the lowercased text. -/
  fromToMatch : Option (String × String)
  /-- groups of `confirmation_pattern` (`pickup X, drop Y`). -/
  confMatch : Option (String × String)
  /-- group of `truck_type_pattern` (`truck type X`). -/
  truckMatch : Option String
  /-- group of `feet_pattern` (`(\d+)\s*(?:feet|ft|foot)`): the digits. -/
  feetMatch : Option String
  /-- The `fuzz.partial_ratio` scorer. -/
  scoreSub : String → String → Nat
  /-- The `fuzz.ratio` scorer. -/
  scoreFull : String → String → Nat
  /-- Result of `datetime.now()`. -/
  now : Date

/-- The `vehicle_keywords` dictionary, in insertion order (Python dict
iteration order, which the fuzzy loops rely on for tie-breaking). -/
def vehicleKeywords : List (String × String) :=
  [("tata ace", "Tata Ace"), ("tata ac", "Tata Ace"), ("ace", "Tata Ace"),
   ("dost", "Dost"), ("bada dost", "Bada Dost"), ("bolero", "Bolero"),
   ("bolero pickup", "Bolero"), ("407", "407"), ("eicher", "Eicher"),
   ("ashok leyland", "Ashok Leyland"),
   ("12 feet", "12 Feet"), ("14 feet", "14 Feet"), ("17 feet", "17 Feet"),
   ("19 feet", "19 Feet"), ("20 feet", "20 Feet"), ("22 feet", "22 Feet"),
   ("24 feet", "24 Feet"), ("32 feet", "32 Feet Multi-Axle"),
   ("32 feet multi-axle", "32 Feet Multi-Axle"),
   ("32 feet multi axle", "32 Feet Multi-Axle"),
   ("trailer", "Trailer"), ("20 feet trailer", "20 Feet Trailer"),
   ("24 feet trailer", "24 Feet Trailer"), ("40 feet trailer", "40 Feet Trailer"),
   ("low-bed", "Low-Bed Trailer"), ("low bed", "Low-Bed Trailer"),
   ("semi-bed", "Semi-Bed Trailer"), ("semi bed", "Semi-Bed Trailer"),
   ("high-bed", "High-Bed Trailer"), ("high bed", "High-Bed Trailer"),
   ("6-wheel", "6-Wheel Truck"), ("6 wheel", "6-Wheel Truck"),
   ("10-wheel", "10-Wheel Truck"), ("10 wheel", "10-Wheel Truck"),
   ("12-wheel", "12-Wheel Truck"), ("12 wheel", "12-Wheel Truck"),
   ("14-wheel", "14-Wheel Truck"), ("14 wheel", "14-Wheel Truck"),
   ("16-wheel", "16-Wheel Truck"), ("16 wheel", "16-Wheel Truck"),
   ("car-carrier", "Car-Carrier"), ("car carrier", "Car-Carrier"),
   ("part-load", "Part-Load"), ("part load", "Part-Load")]

/-- The `materials` keyword list. -/
def materialsList : List String :=
  ["steel", "cement", "fmcg", "machinery", "furniture", "electronics",
   "food", "grain", "coal", "books", "paper", "textile", "clothes",
   "plastic", "metal", "wood", "glass", "chemicals"]

/-- One pass of the prefix-stripping loop body: if the value lowercased
starts with the given word, drop it and re-apply `.title()`. -/
def stripLeadWord (s w : String) : String :=
  if strStarts (toLowerStr s) w then pyTitle (strDropN s (strLen w)) else s

/-- The loop `for prefix in ['in ', 'from ', 'at ']: ...` applied to one
captured location. -/
def dropLeadWords (s : String) : String :=
  stripLeadWord (stripLeadWord (stripLeadWord s "in ") "from ") "at "

/-- Free-form capture post-processing: `.strip().title()`. -/
def ffProc (g : String) : String := pyTitle (trimStr g)

/-- Confirmation capture post-processing: `.strip().title()` followed by
the prefix-stripping loop. -/
def confProc (g : String) : String := dropLeadWords (pyTitle (trimStr g))

/-- Free-form update rule for one location field: overwrite when the
field is falsy or the new capture is strictly longer. -/
def ffUpd (old : Option String) (cap : String) : Option String :=
  if optFalsy old || strLen cap > optLen old then some cap else old

/-- Confirmation update rule for one location field: overwrite whenever
the processed capture is nonempty and longer than 2 characters. -/
def confUpd (old : Option String) (cap : String) : Option String :=
  if cap != "" && strLen cap > 2 then some cap else old

/-- Lines 209-250 of `llm.py`: the two location patterns.  The free-form
block runs first, the confirmation block second on its result. -/
def updateLocations (env : ExtractEnv) (b : BookingData) : BookingData :=
  let b1 := match env.fromToMatch with
    | some (g1, g2) =>
      let pickup := ffProc g1
      let drop := ffProc g2
      let bp := if optFalsy b.pickup_location || strLen pickup > optLen b.pickup_location
                then { b with pickup_location := some pickup } else b
      if optFalsy bp.drop_location || strLen drop > optLen bp.drop_location
      then { bp with drop_location := some drop } else bp
    | none => b
  match env.confMatch with
  | some (g1, g2) =>
    let pickup := confProc g1
    let drop := confProc g2
    let bp := if pickup != "" && strLen pickup > 2
              then { b1 with pickup_location := some pickup } else b1
    if drop != "" && strLen drop > 2
    then { bp with drop_location := some drop } else bp
  | none => b1

/-- Lines 253-260: body type; `is None` guard, `open` before `container`. -/
def updateBodyType (tl : String) (b : BookingData) : BookingData :=
  if strHas tl "open" && b.body_type == none then { b with body_type := some "Open" }
  else if strHas tl "container" && b.body_type == none then
    { b with body_type := some "Container" }
  else b

/-- All contiguous word spans of length 1 to 4, in loop order
(`for i in range(len(words)): for j in range(i+1, min(i+5, len(words)+1))`). -/
def ngrams (ws : List String) : List String :=
  (List.range ws.length).flatMap fun i =>
    (List.range' (i + 1) (min (i + 5) (ws.length + 1) - (i + 1))).map fun j =>
      joinWith " " ((ws.drop i).take (j - i))

/-- The loop body shared by both fuzzy scans: walk the (phrase, keyword,
vehicle) candidates in iteration order, carrying `best_score` and
`best_vehicle`, keeping the first strict improvement at or above the
threshold. -/
def scanBest (score : String → String → Nat) (threshold : Nat) :
    Nat → Option String → List (String × String × String) → Nat × Option String
  | best, bv, [] => (best, bv)
  | best, bv, (ph, k, v) :: rest =>
    let sc := score ph k
    if sc > best && sc ≥ threshold then scanBest score threshold sc (some v) rest
    else scanBest score threshold best bv rest

/-- The sliding-window fuzzy scan (lines 331-345): every (phrase,
keyword) pair in loop order, scored with `fuzz.partial_ratio` at
threshold 85; returns `(best_score, best_vehicle)`. -/
def windowScan (env : ExtractEnv) (tl : String) : Nat × Option String :=
  scanBest env.scoreSub 85 0 none
    ((ngrams (pySplit tl)).flatMap fun ph =>
      vehicleKeywords.map fun kv => (ph, kv.1, kv.2))

/-- Lines 322-352: the sliding-window match, attempted only while
`vehicle_type` is falsy; accepted when a candidate exists and its score
is at least 85. -/
def updateVehicleWindow (env : ExtractEnv) (tl : String) (b : BookingData) : BookingData :=
  if optFalsy b.vehicle_type then
    let r := windowScan env tl
    match r.2 with
    | some v => if v != "" && r.1 ≥ 85 then { b with vehicle_type := some v } else b
    | none => b
  else b

/-- The `fuzz.ratio` loop over the captured `truck type X` phrase
(lines 362-370): threshold 65, first strict improvement wins. -/
def truckScan (env : ExtractEnv) : Option String :=
  match env.truckMatch with
  | some g =>
    let mentioned := trimStr g
    (scanBest (fun m k => env.scoreFull (toLowerStr m) k) 65 0 none
      (vehicleKeywords.map fun kv => (mentioned, kv.1, kv.2))).2
  | none => none

/-- Lines 354-376: the explicit `truck type X` re-match.  The source has
no `vehicle_type` guard here: a successful fuzzy match always assigns. -/
def updateVehicleTruck (env : ExtractEnv) (b : BookingData) : BookingData :=
  match truckScan env with
  | some v => if v != "" then { b with vehicle_type := some v } else b
  | none => b

/-- Lines 379-390: the `<N> feet` and literal `truck` fallbacks, applied
only while `vehicle_type` is still falsy. -/
def updateVehicleFallback (env : ExtractEnv) (tl : String) (b : BookingData) : BookingData :=
  if optFalsy b.vehicle_type then
    match env.feetMatch with
    | some n => { b with vehicle_type := some (n ++ " Feet") }
    | none =>
      if strHas tl "truck" then { b with vehicle_type := some "Truck" } else b
  else b

/-- Lines 393-403: first catalog material contained in the text sets the
field while it is falsy. -/
def updateGoods (tl : String) (b : BookingData) : BookingData :=
  if optFalsy b.goods_type then
    match materialsList.find? (fun m => strHas tl m) with
    | some m => { b with goods_type := some (pyTitle m) }
    | none => b
  else b

/-- Lines 406-423: relative trip-date keywords, guarded by a falsy
`trip_date`; the branches are the source's `if`/`elif` chain in order. -/
def updateTripDate (today : Date) (tl : String) (b : BookingData) : BookingData :=
  if optFalsy b.trip_date then
    if strHas tl "today" || strHas tl "now" then
      { b with trip_date := some (toISO today) }
    else if strHas tl "tomorrow" then
      { b with trip_date := some (toISO (addDays today 1)) }
    else if strHas tl "day after tomorrow" || strHas tl "overmorrow" then
      { b with trip_date := some (toISO (addDays today 2)) }
    else b
  else b

/-- Transcription of `LLMAgent._extract_booking_info`: the blocks in source order, all
over the lowercased text. -/
def extractBookingInfo (env : ExtractEnv) (text : String) (b : BookingData) : BookingData :=
  let tl := toLowerStr text
  updateTripDate env.now tl (updateGoods tl (updateVehicleFallback env tl
    (updateVehicleTruck env (updateVehicleWindow env tl
      (updateBodyType tl (updateLocations env b))))))

/-- The `confirmation_keywords` list of `_detect_confirmation`. -/
def confirmationKeywords : List String :=
  ["yes", "yeah", "yep", "ok", "okay", "correct", "right", "sure",
   "fine", "perfect", "that\x27s right", "confirmed", "done",
   "absolutely", "exactly"]

/-- The `rejection_keywords` list of `_detect_confirmation`. -/
def rejectionKeywords : List String :=
  ["no", "not interested", "cancel", "don\x27t want", "not now"]

/-- Transcription of `LLMAgent._detect_confirmation`: confirmation scan first, rejection
scan second, each one-shot behind a `== "pending"` guard. -/
def detectConfirmation (text : String) (b : BookingData) : BookingData :=
  let tl := toLowerStr text
  let b1 := if confirmationKeywords.any (fun k => strHas tl k) then
      (if b.confirmation_status == "pending" then
        { b with confirmation_status := "confirmed" } else b)
    else b
  if rejectionKeywords.any (fun k => strHas tl k) then
    (if b1.confirmation_status == "pending" then
      { b1 with confirmation_status := "not_interested" } else b1)
  else b1

/-- Transcription of `LLMAgent.check_booking_confirmed_marker`: case-sensitive substring
test on the raw reply text. -/
def checkMarker (t : String) : Bool := strHas t "BOOKING_CONFIRMED"

/-- One processed turn: a finalized user utterance or a generated
assistant reply, each with the oracle results of its external calls. -/
inductive TurnEvent where
  | userTurn (text : String) (env : ExtractEnv)
  | assistantTurn (text : String) (env : ExtractEnv)

/-- The mutations `generate_response` performs on `booking_data` for one
event: a user utterance runs extraction then keyword detection (after the
empty-text guard); a generated reply runs extraction and then the
`BOOKING_CONFIRMED` marker check, which assigns `"confirmed"` with no
guard on the prior status (lines 83-87). -/
def stepTurn (b : BookingData) : TurnEvent → BookingData
  | .userTurn t env =>
    if trimStr t == "" then b
    else detectConfirmation t (extractBookingInfo env t b)
  | .assistantTurn t env =>
    let b1 := extractBookingInfo env t b
    if checkMarker t then { b1 with confirmation_status := "confirmed" } else b1

/-- A whole call: the events in order. -/
def processTrace (es : List TurnEvent) (b : BookingData) : BookingData :=
  es.foldl stepTurn b

/-- Environment with no regex match, zero fuzzy scores and the given
clock; used to evaluate concrete utterances none of whose text matches
any of the four patterns. -/
def envAt (d : Date) : ExtractEnv :=
  { fromToMatch := none, confMatch := none, truckMatch := none,
    feetMatch := none, scoreSub := fun _ _ => 0, scoreFull := fun _ _ => 0,
    now := d }

/-! ## `BookingData.__str__` (`core/prompt.py`, lines 93-111)

Python attribute access is modelled by name: `getAttrB` returns the
value of an attribute of a reachable `BookingData` object, or `none`
when the object has no such attribute (an `AttributeError`).  The format
template's placeholders are evaluated left to right; the fourth reads
`self.enquiry_details`. -/

/-- A Python attribute value of `BookingData`: a plain string or `None`. -/
inductive PyVal where
  | str (s : String)
  | noneV
deriving DecidableEq

/-- Attribute lookup on a `BookingData` object: exactly the attributes
`__init__` creates exist (see the comment on `BookingData`). -/
def getAttrB (b : BookingData) (name : String) : Option PyVal :=
  if name == "customer_name" then some (.str b.customer_name)
  else if name == "contact" then some (.str b.contact)
  else if name == "lead_source" then some (b.lead_source.elim .noneV .str)
  else if name == "pickup_location" then some (b.pickup_location.elim .noneV .str)
  else if name == "drop_location" then some (b.drop_location.elim .noneV .str)
  else if name == "vehicle_type" then some (b.vehicle_type.elim .noneV .str)
  else if name == "body_type" then some (b.body_type.elim .noneV .str)
  else if name == "goods_type" then some (b.goods_type.elim .noneV .str)
  else if name == "trip_date" then some (b.trip_date.elim .noneV .str)
  else if name == "confirmation_status" then some (.str b.confirmation_status)
  else none

/-- Python `x or '[NOT PROVIDED]'` on an attribute value. -/
def orNotProvided : PyVal → String
  | .str s => if s == "" then "[NOT PROVIDED]" else s
  | .noneV => "[NOT PROVIDED]"

/-- Read one attribute for the template, raising `AttributeError` when
the attribute does not exist. -/
def readAttr (b : BookingData) (name : String) : Except String PyVal :=
  (getAttrB b name).elim (.error "AttributeError") .ok

/-- Transcription of `BookingData.__str__`: evaluates the placeholder attribute reads in
template order; the fourth placeholder reads `self.enquiry_details`. -/
def bookingStr (b : BookingData) : Except String String := do
  let cn ← readAttr b "customer_name"
  let ct ← readAttr b "contact"
  let ls ← readAttr b "lead_source"
  let ed ← readAttr b "enquiry_details"
  let pu ← readAttr b "pickup_location"
  let dr ← readAttr b "drop_location"
  let vt ← readAttr b "vehicle_type"
  let bt ← readAttr b "body_type"
  let gt ← readAttr b "goods_type"
  let td ← readAttr b "trip_date"
  let cs ← readAttr b "confirmation_status"
  .ok (joinWith "\n"
    ["DROPTRUCK BOOKING INFORMATION",
     "Customer Name................. " ++ orNotProvided cn,
     "Contact Number................ " ++ orNotProvided ct,
     "Lead Source................... " ++ orNotProvided ls,
     "Enquiry Details............... " ++ orNotProvided ed,
     "Pickup Location............... " ++ orNotProvided pu,
     "Drop Location................. " ++ orNotProvided dr,
     "Vehicle Type.................. " ++ orNotProvided vt,
     "Body Type..................... " ++ orNotProvided bt,
     "Goods/Material Type........... " ++ orNotProvided gt,
     "Trip Date..................... " ++ orNotProvided td,
     "Confirmation Status........... " ++ (match cs with | .str s => s | .noneV => "None")])

/-- Transcription of `VoiceAgent.print_booking_summary` (`main.py`, lines 258-264): prints
`str(booking_data)`; it succeeds exactly when `__str__` does. -/
def printBookingSummary (b : BookingData) : Except String String := bookingStr b

/-! ## ConversationRecorder capture and flush (`core/audio_recorder.py`)

Chunks are byte lists; the user artifact is a WAV container holding the
fixed format parameters and the concatenated frame bytes.  The session
directory's file system is part of the state only through `userWav`
(content of `user_input.wav`, `none` while the file does not exist). -/

/-- The WAV container `_save_user_audio` writes: channel count, sample
width, frame rate and the frame bytes passed to `writeframes`. -/
structure WavFile where
  nchannels : Nat
  sampwidth : Nat
  framerate : Nat
  frames : List Nat
deriving DecidableEq

/-- The recorder's capture state: `user_audio_buffer`,
`recording_active`, and the user artifact. -/
structure RecorderState where
  user_audio_buffer : List (List Nat)
  recording_active : Bool
  userWav : Option WavFile
deriving DecidableEq

/-- Transcription of `start_recording`: activate and clear the buffer. -/
def startRecording (s : RecorderState) : RecorderState :=
  { s with recording_active := true, user_audio_buffer := [] }

/-- Transcription of `add_audio_chunk`: append under the lock only while active. -/
def addAudioChunk (d : List Nat) (s : RecorderState) : RecorderState :=
  if s.recording_active then
    { s with user_audio_buffer := s.user_audio_buffer ++ [d] }
  else s

/-- Transcription of `_save_user_audio`: return without writing when the buffer is empty,
else write the chunks joined in order as a 16 kHz mono 16-bit WAV. -/
def saveUserAudio (s : RecorderState) : RecorderState :=
  if s.user_audio_buffer = [] then s
  else { s with userWav := some ⟨1, 2, 16000, s.user_audio_buffer.flatten⟩ }

/-- Transcription of `stop_recording`: deactivate, then save if the buffer is nonempty. -/
def stopRecording (s : RecorderState) : RecorderState :=
  let s1 := { s with recording_active := false }
  if s1.user_audio_buffer ≠ [] then saveUserAudio s1 else s1

/-- A sequence of `add_audio_chunk` calls in arrival order. -/
def pushAll (cs : List (List Nat)) (s : RecorderState) : RecorderState :=
  cs.foldl (fun s c => addAudioChunk c s) s

/-! ## `merge_conversation` (`core/audio_recorder.py`, lines 99-158)

A file referenced during the merge either does not exist
(`os.path.exists` is false), exists but fails to decode
(`AudioSegment.from_wav`/`from_mp3` raises, caught only by the outer
`except`, which returns `None`), or decodes to audio, abstracted by its
payload. -/

/-- Content of an existing file as the merge sees it. -/
inductive FileData where
  | audio (payload : Nat)
  | corrupt
deriving DecidableEq

/-- One segment of the assembled timeline. -/
inductive Seg where
  | silence (ms : Nat)
  | userSeg (payload : Nat)
  | replySeg (payload : Nat)
deriving DecidableEq

/-- The reply loop (lines 123-133): a missing file is skipped with a log
line; an existing file is decoded (an undecodable one raises, aborting
the whole `try` block); a decoded file contributes a 300 ms pause and
its audio. -/
def mergeLoop (fs : String → Option FileData) : List String → Except Unit (List Seg)
  | [] => .ok []
  | p :: ps =>
    match fs p with
    | none => mergeLoop fs ps
    | some .corrupt => .error ()
    | some (.audio a) => do
      let rest ← mergeLoop fs ps
      return [Seg.silence 300, Seg.replySeg a] ++ rest

/-- Transcription of `merge_conversation`: `None` when the user artifact is missing;
otherwise 500 ms lead-in, the user audio, the reply loop, 500 ms
trailer; any exception inside the `try` yields `None`.  The export call
and the subsequent cleanup of intermediate files come after the timeline
is assembled and do not change it; they are outside this model. -/
def mergeConversation (fs : String → Option FileData) (userPath : String)
    (responses : List String) : Option (List Seg) :=
  match fs userPath with
  | none => none
  | some .corrupt => none
  | some (.audio u) =>
    match mergeLoop fs responses with
    | .error _ => none
    | .ok mids => some ([Seg.silence 500, Seg.userSeg u] ++ mids ++ [Seg.silence 500])

/-- Number of assistant-reply segments in a timeline. -/
def replyCount (l : List Seg) : Nat :=
  (l.filter fun s => match s with | .replySeg _ => true | _ => false).length

/-- The segments the reply loop contributes, path by path: nothing for a
missing file, a 300 ms pause plus the audio for a readable one. -/
def replySegsOf (fs : String → Option FileData) (rs : List String) : List Seg :=
  rs.flatMap fun p =>
    match fs p with
    | some (.audio a) => [Seg.silence 300, Seg.replySeg a]
    | _ => []

/-- Number of registered reply paths whose artifact is readable. -/
def readableCount (fs : String → Option FileData) (rs : List String) : Nat :=
  (rs.filter fun p =>
    match fs p with
    | some (.audio _) => true
    | _ => false).length

/-! ## TextToSpeech and reply registration (`app/tts.py`, `main.py`) -/

/-- The TTS component's state: the `save_individual_files` flag and the
in-memory `audio_responses` list. -/
structure TTSState where
  save_individual_files : Bool
  audio_responses : List (List Nat)
deriving DecidableEq

/-- Outcome of one Deepgram synthesis call: the provider raises, or it
returns the audio bytes (with the timestamped path the file branch would
write them to). -/
inductive SynthOutcome where
  | failure
  | success (audioData : List Nat) (path : String)

/-- Transcription of `TextToSpeech.synthesize`: empty text and provider failure return
`""`; on success the file branch writes and returns the path, while the
memory branch appends the bytes to `audio_responses` and returns `""`. -/
def synthesize (st : TTSState) (text : String) (out : SynthOutcome) :
    TTSState × String :=
  if trimStr text == "" then (st, "")
  else match out with
    | .failure => (st, "")
    | .success dat p =>
      if st.save_individual_files then (st, p)
      else ({ st with audio_responses := st.audio_responses ++ [dat] }, "")

/-- The TTS object `VoiceAgent.__init__` builds (`main.py`, line 55):
`TextToSpeech(output_dir=...)`, leaving `save_individual_files` at its
default `False` and the memory list empty. -/
def ttsInit : TTSState := { save_individual_files := false, audio_responses := [] }

/-- The orchestrator state the reply-registration path touches: the TTS
component and the recorder's `assistant_responses` path list. -/
structure AgentState where
  tts : TTSState
  assistant_responses : List String
deriving DecidableEq

/-- Transcription of `VoiceAgent.process_user_input`, lines 102-107: synthesize the reply
and register the returned path with the recorder only when it is
nonempty. -/
def processReply (ag : AgentState) (replyText : String) (out : SynthOutcome) :
    AgentState :=
  let r := synthesize ag.tts replyText out
  { tts := r.1,
    assistant_responses :=
      if r.2 ≠ "" then ag.assistant_responses ++ [r.2] else ag.assistant_responses }

/-- A whole call's reply turns in order. -/
def processAllReplies (turns : List (String × SynthOutcome)) (ag : AgentState) :
    AgentState :=
  turns.foldl (fun a t => processReply a t.1 t.2) ag

/-! ## Per-field update rules

Each `BookingData` field is touched by exactly one group of blocks of
`_extract_booking_info` (respectively by `_detect_confirmation`), and
each block reads, besides the utterance and the environment, only the
field it writes.  The rules below state the net effect of each group on
its field; the lemmas following them prove that the sequential blocks
realize exactly these rules. -/

/-- Net effect of the two location blocks on `pickup_location`. -/
def pickupRule (env : ExtractEnv) (old : Option String) : Option String :=
  let mid := match env.fromToMatch with
    | some (g1, _) => ffUpd old (ffProc g1)
    | none => old
  match env.confMatch with
  | some (g1, _) => confUpd mid (confProc g1)
  | none => mid

/-- Net effect of the two location blocks on `drop_location`. -/
def dropRule (env : ExtractEnv) (old : Option String) : Option String :=
  let mid := match env.fromToMatch with
    | some (_, g2) => ffUpd old (ffProc g2)
    | none => old
  match env.confMatch with
  | some (_, g2) => confUpd mid (confProc g2)
  | none => mid

/-- Net effect of the sliding-window block on `vehicle_type`. -/
def windowStep (env : ExtractEnv) (tl : String) (old : Option String) : Option String :=
  if optFalsy old then
    let r := windowScan env tl
    match r.2 with
    | some v => if v != "" && r.1 ≥ 85 then some v else old
    | none => old
  else old

/-- Net effect of the `truck type X` block on `vehicle_type`. -/
def truckStep (env : ExtractEnv) (old : Option String) : Option String :=
  match truckScan env with
  | some v => if v != "" then some v else old
  | none => old

/-- Net effect of the feet/literal-truck fallback block on `vehicle_type`. -/
def fallbackStep (env : ExtractEnv) (tl : String) (old : Option String) : Option String :=
  if optFalsy old then
    match env.feetMatch with
    | some n => some (n ++ " Feet")
    | none => if strHas tl "truck" then some "Truck" else old
  else old

/-- Net effect of all three vehicle blocks in order. -/
def vehicleRule (env : ExtractEnv) (tl : String) (old : Option String) : Option String :=
  fallbackStep env tl (truckStep env (windowStep env tl old))

/-- Net effect of the trip-date block. -/
def tripDateRule (today : Date) (tl : String) (old : Option String) : Option String :=
  if optFalsy old then
    if strHas tl "today" || strHas tl "now" then some (toISO today)
    else if strHas tl "tomorrow" then some (toISO (addDays today 1))
    else if strHas tl "day after tomorrow" || strHas tl "overmorrow" then
      some (toISO (addDays today 2))
    else old
  else old

/-- Net effect of `_detect_confirmation` on `confirmation_status`. -/
def detectStatus (tl st : String) : String :=
  let s1 := if confirmationKeywords.any (fun k => strHas tl k) then
      (if st == "pending" then "confirmed" else st)
    else st
  if rejectionKeywords.any (fun k => strHas tl k) then
    (if s1 == "pending" then "not_interested" else s1)
  else s1

/-! ## Concrete instances used in the closed theorems -/

/-- A fixed wall-clock date for concrete evaluations. -/
def dOct12 : Date := ⟨2026, 10, 12⟩

/-- Environment for `"pickup x, drop y"`: only the confirmation pattern
matches, capturing `("x", "y")`; neither `from .. to`, `truck ..` nor a
feet numeral occurs in the text. -/
def envConfShort : ExtractEnv := { envAt dOct12 with confMatch := some ("x", "y") }

/-- Environment for the spec scenario utterance
`"Pickup in Chennai, drop in Bangalore, ..."`: the confirmation pattern
matches with the optional `in ` consumed, capturing
`("chennai", "bangalore")`. -/
def envConfCities : ExtractEnv :=
  { envAt dOct12 with confMatch := some ("chennai", "bangalore") }

/-- Environment for `"truck type bolero"`: the `truck type X` pattern
captures `"bolero"`; the scorer is a conformant whole-string similarity
(`fuzz.ratio` gives identical strings the score 100). -/
def envTruck : ExtractEnv :=
  { envAt dOct12 with
    truckMatch := some "bolero"
    scoreFull := fun a b => if a == b then 100 else 0 }

/-- A record whose vehicle type was already collected. -/
def bTata : BookingData := { initBooking with vehicle_type := some "Tata Ace" }

/-- A capture state holding one pending chunk. -/
def c6state : RecorderState := ⟨[[1, 2]], true, none⟩

/-- Session files for the merge: the user artifact and replies 1 and 3
are readable, reply 2 exists but cannot be decoded. -/
def fsCorrupt : String → Option FileData := fun p =>
  if p == "user.wav" then some (.audio 10)
  else if p == "r1" then some (.audio 3)
  else if p == "r2" then some .corrupt
  else if p == "r3" then some (.audio 4)
  else none

/-- Session files for the merge: the user artifact and replies 1 and 3
are readable, reply 2 is absent. -/
def fsMissing : String → Option FileData := fun p =>
  if p == "user.wav" then some (.audio 10)
  else if p == "r1" then some (.audio 3)
  else if p == "r3" then some (.audio 4)
  else none

/-- Session files holding only a readable user artifact. -/
def fsUserOnly : String → Option FileData := fun p =>
  if p == "user.wav" then some (.audio 7) else none

/-! ## Projection lemmas: each block touches only its own field -/

theorem updateLocations_pickup (env : ExtractEnv) (b : BookingData) :
    (updateLocations env b).pickup_location = pickupRule env b.pickup_location := by
  rcases env with ⟨ftm, cm, tm, fm, ss, sf, nowd⟩
  rcases ftm with _ | ⟨g1, g2⟩ <;> rcases cm with _ | ⟨c1, c2⟩ <;>
    simp only [updateLocations, pickupRule, ffUpd, confUpd] <;> (repeat' split) <;> rfl

theorem updateLocations_drop (env : ExtractEnv) (b : BookingData) :
    (updateLocations env b).drop_location = dropRule env b.drop_location := by
  rcases env with ⟨ftm, cm, tm, fm, ss, sf, nowd⟩
  rcases ftm with _ | ⟨g1, g2⟩ <;> rcases cm with _ | ⟨c1, c2⟩ <;>
    simp only [updateLocations, dropRule, ffUpd, confUpd] <;> (repeat' split) <;> rfl

theorem updateLocations_vehicle (env : ExtractEnv) (b : BookingData) :
    (updateLocations env b).vehicle_type = b.vehicle_type := by
  rcases env with ⟨ftm, cm, tm, fm, ss, sf, nowd⟩
  rcases ftm with _ | ⟨g1, g2⟩ <;> rcases cm with _ | ⟨c1, c2⟩ <;>
    simp only [updateLocations] <;> (repeat' split) <;> rfl

theorem updateLocations_body (env : ExtractEnv) (b : BookingData) :
    (updateLocations env b).body_type = b.body_type := by
  rcases env with ⟨ftm, cm, tm, fm, ss, sf, nowd⟩
  rcases ftm with _ | ⟨g1, g2⟩ <;> rcases cm with _ | ⟨c1, c2⟩ <;>
    simp only [updateLocations] <;> (repeat' split) <;> rfl

theorem updateLocations_goods (env : ExtractEnv) (b : BookingData) :
    (updateLocations env b).goods_type = b.goods_type := by
  rcases env with ⟨ftm, cm, tm, fm, ss, sf, nowd⟩
  rcases ftm with _ | ⟨g1, g2⟩ <;> rcases cm with _ | ⟨c1, c2⟩ <;>
    simp only [updateLocations] <;> (repeat' split) <;> rfl

theorem updateLocations_trip (env : ExtractEnv) (b : BookingData) :
    (updateLocations env b).trip_date = b.trip_date := by
  rcases env with ⟨ftm, cm, tm, fm, ss, sf, nowd⟩
  rcases ftm with _ | ⟨g1, g2⟩ <;> rcases cm with _ | ⟨c1, c2⟩ <;>
    simp only [updateLocations] <;> (repeat' split) <;> rfl

theorem updateLocations_status (env : ExtractEnv) (b : BookingData) :
    (updateLocations env b).confirmation_status = b.confirmation_status := by
  rcases env with ⟨ftm, cm, tm, fm, ss, sf, nowd⟩
  rcases ftm with _ | ⟨g1, g2⟩ <;> rcases cm with _ | ⟨c1, c2⟩ <;>
    simp only [updateLocations] <;> (repeat' split) <;> rfl

theorem updateBodyType_pickup (tl : String) (b : BookingData) :
    (updateBodyType tl b).pickup_location = b.pickup_location := by
  simp only [updateBodyType]; (repeat' split) <;> rfl

theorem updateBodyType_drop (tl : String) (b : BookingData) :
    (updateBodyType tl b).drop_location = b.drop_location := by
  simp only [updateBodyType]; (repeat' split) <;> rfl

theorem updateBodyType_vehicle (tl : String) (b : BookingData) :
    (updateBodyType tl b).vehicle_type = b.vehicle_type := by
  simp only [updateBodyType]; (repeat' split) <;> rfl

theorem updateBodyType_goods (tl : String) (b : BookingData) :
    (updateBodyType tl b).goods_type = b.goods_type := by
  simp only [updateBodyType]; (repeat' split) <;> rfl

theorem updateBodyType_trip (tl : String) (b : BookingData) :
    (updateBodyType tl b).trip_date = b.trip_date := by
  simp only [updateBodyType]; (repeat' split) <;> rfl

theorem updateBodyType_status (tl : String) (b : BookingData) :
    (updateBodyType tl b).confirmation_status = b.confirmation_status := by
  simp only [updateBodyType]; (repeat' split) <;> rfl

theorem updateVehicleWindow_vehicle (env : ExtractEnv) (tl : String) (b : BookingData) :
    (updateVehicleWindow env tl b).vehicle_type = windowStep env tl b.vehicle_type := by
  simp only [updateVehicleWindow, windowStep]; (repeat' split) <;> rfl

theorem updateVehicleWindow_pickup (env : ExtractEnv) (tl : String) (b : BookingData) :
    (updateVehicleWindow env tl b).pickup_location = b.pickup_location := by
  simp only [updateVehicleWindow]; (repeat' split) <;> rfl

theorem updateVehicleWindow_drop (env : ExtractEnv) (tl : String) (b : BookingData) :
    (updateVehicleWindow env tl b).drop_location = b.drop_location := by
  simp only [updateVehicleWindow]; (repeat' split) <;> rfl

theorem updateVehicleWindow_goods (env : ExtractEnv) (tl : String) (b : BookingData) :
    (updateVehicleWindow env tl b).goods_type = b.goods_type := by
  simp only [updateVehicleWindow]; (repeat' split) <;> rfl

theorem updateVehicleWindow_trip (env : ExtractEnv) (tl : String) (b : BookingData) :
    (updateVehicleWindow env tl b).trip_date = b.trip_date := by
  simp only [updateVehicleWindow]; (repeat' split) <;> rfl

theorem updateVehicleWindow_status (env : ExtractEnv) (tl : String) (b : BookingData) :
    (updateVehicleWindow env tl b).confirmation_status = b.confirmation_status := by
  simp only [updateVehicleWindow]; (repeat' split) <;> rfl

theorem updateVehicleTruck_vehicle (env : ExtractEnv) (b : BookingData) :
    (updateVehicleTruck env b).vehicle_type = truckStep env b.vehicle_type := by
  simp only [updateVehicleTruck, truckStep]; (repeat' split) <;> rfl

theorem updateVehicleTruck_pickup (env : ExtractEnv) (b : BookingData) :
    (updateVehicleTruck env b).pickup_location = b.pickup_location := by
  simp only [updateVehicleTruck]; (repeat' split) <;> rfl

theorem updateVehicleTruck_drop (env : ExtractEnv) (b : BookingData) :
    (updateVehicleTruck env b).drop_location = b.drop_location := by
  simp only [updateVehicleTruck]; (repeat' split) <;> rfl

theorem updateVehicleTruck_goods (env : ExtractEnv) (b : BookingData) :
    (updateVehicleTruck env b).goods_type = b.goods_type := by
  simp only [updateVehicleTruck]; (repeat' split) <;> rfl

theorem updateVehicleTruck_trip (env : ExtractEnv) (b : BookingData) :
    (updateVehicleTruck env b).trip_date = b.trip_date := by
  simp only [updateVehicleTruck]; (repeat' split) <;> rfl

theorem updateVehicleTruck_status (env : ExtractEnv) (b : BookingData) :
    (updateVehicleTruck env b).confirmation_status = b.confirmation_status := by
  simp only [updateVehicleTruck]; (repeat' split) <;> rfl

theorem updateVehicleFallback_vehicle (env : ExtractEnv) (tl : String) (b : BookingData) :
    (updateVehicleFallback env tl b).vehicle_type = fallbackStep env tl b.vehicle_type := by
  simp only [updateVehicleFallback, fallbackStep]; (repeat' split) <;> rfl

theorem updateVehicleFallback_pickup (env : ExtractEnv) (tl : String) (b : BookingData) :
    (updateVehicleFallback env tl b).pickup_location = b.pickup_location := by
  simp only [updateVehicleFallback]; (repeat' split) <;> rfl

theorem updateVehicleFallback_drop (env : ExtractEnv) (tl : String) (b : BookingData) :
    (updateVehicleFallback env tl b).drop_location = b.drop_location := by
  simp only [updateVehicleFallback]; (repeat' split) <;> rfl

theorem updateVehicleFallback_goods (env : ExtractEnv) (tl : String) (b : BookingData) :
    (updateVehicleFallback env tl b).goods_type = b.goods_type := by
  simp only [updateVehicleFallback]; (repeat' split) <;> rfl

theorem updateVehicleFallback_trip (env : ExtractEnv) (tl : String) (b : BookingData) :
    (updateVehicleFallback env tl b).trip_date = b.trip_date := by
  simp only [updateVehicleFallback]; (repeat' split) <;> rfl

theorem updateVehicleFallback_status (env : ExtractEnv) (tl : String) (b : BookingData) :
    (updateVehicleFallback env tl b).confirmation_status = b.confirmation_status := by
  simp only [updateVehicleFallback]; (repeat' split) <;> rfl

theorem updateGoods_pickup (tl : String) (b : BookingData) :
    (updateGoods tl b).pickup_location = b.pickup_location := by
  simp only [updateGoods]; (repeat' split) <;> rfl

theorem updateGoods_drop (tl : String) (b : BookingData) :
    (updateGoods tl b).drop_location = b.drop_location := by
  simp only [updateGoods]; (repeat' split) <;> rfl

theorem updateGoods_vehicle (tl : String) (b : BookingData) :
    (updateGoods tl b).vehicle_type = b.vehicle_type := by
  simp only [updateGoods]; (repeat' split) <;> rfl

theorem updateGoods_trip (tl : String) (b : BookingData) :
    (updateGoods tl b).trip_date = b.trip_date := by
  simp only [updateGoods]; (repeat' split) <;> rfl

theorem updateGoods_status (tl : String) (b : BookingData) :
    (updateGoods tl b).confirmation_status = b.confirmation_status := by
  simp only [updateGoods]; (repeat' split) <;> rfl

theorem updateTripDate_trip (today : Date) (tl : String) (b : BookingData) :
    (updateTripDate today tl b).trip_date = tripDateRule today tl b.trip_date := by
  simp only [updateTripDate, tripDateRule]; (repeat' split) <;> rfl

theorem updateTripDate_pickup (today : Date) (tl : String) (b : BookingData) :
    (updateTripDate today tl b).pickup_location = b.pickup_location := by
  simp only [updateTripDate]; (repeat' split) <;> rfl

theorem updateTripDate_drop (today : Date) (tl : String) (b : BookingData) :
    (updateTripDate today tl b).drop_location = b.drop_location := by
  simp only [updateTripDate]; (repeat' split) <;> rfl

theorem updateTripDate_vehicle (today : Date) (tl : String) (b : BookingData) :
    (updateTripDate today tl b).vehicle_type = b.vehicle_type := by
  simp only [updateTripDate]; (repeat' split) <;> rfl

theorem updateTripDate_status (today : Date) (tl : String) (b : BookingData) :
    (updateTripDate today tl b).confirmation_status = b.confirmation_status := by
  simp only [updateTripDate]; (repeat' split) <;> rfl

theorem detectConfirmation_status (t : String) (b : BookingData) :
    (detectConfirmation t b).confirmation_status =
      detectStatus (toLowerStr t) b.confirmation_status := by
  simp only [detectConfirmation, detectStatus]; (repeat' split) <;> rfl

theorem detectConfirmation_trip (t : String) (b : BookingData) :
    (detectConfirmation t b).trip_date = b.trip_date := by
  simp only [detectConfirmation]; (repeat' split) <;> rfl

theorem detectConfirmation_pickup (t : String) (b : BookingData) :
    (detectConfirmation t b).pickup_location = b.pickup_location := by
  simp only [detectConfirmation]; (repeat' split) <;> rfl

theorem detectConfirmation_drop (t : String) (b : BookingData) :
    (detectConfirmation t b).drop_location = b.drop_location := by
  simp only [detectConfirmation]; (repeat' split) <;> rfl

theorem detectConfirmation_vehicle (t : String) (b : BookingData) :
    (detectConfirmation t b).vehicle_type = b.vehicle_type := by
  simp only [detectConfirmation]; (repeat' split) <;> rfl

/-! ## Net-effect lemmas for the whole extraction pass -/

theorem extract_status (env : ExtractEnv) (text : String) (b : BookingData) :
    (extractBookingInfo env text b).confirmation_status = b.confirmation_status := by
  simp only [extractBookingInfo, updateTripDate_status, updateGoods_status,
    updateVehicleFallback_status, updateVehicleTruck_status, updateVehicleWindow_status,
    updateBodyType_status, updateLocations_status]

theorem extract_trip (env : ExtractEnv) (text : String) (b : BookingData) :
    (extractBookingInfo env text b).trip_date =
      tripDateRule env.now (toLowerStr text) b.trip_date := by
  simp only [extractBookingInfo, updateTripDate_trip, updateGoods_trip,
    updateVehicleFallback_trip, updateVehicleTruck_trip, updateVehicleWindow_trip,
    updateBodyType_trip, updateLocations_trip]

theorem extract_pickup (env : ExtractEnv) (text : String) (b : BookingData) :
    (extractBookingInfo env text b).pickup_location =
      pickupRule env b.pickup_location := by
  simp only [extractBookingInfo, updateTripDate_pickup, updateGoods_pickup,
    updateVehicleFallback_pickup, updateVehicleTruck_pickup, updateVehicleWindow_pickup,
    updateBodyType_pickup, updateLocations_pickup]

theorem extract_drop (env : ExtractEnv) (text : String) (b : BookingData) :
    (extractBookingInfo env text b).drop_location =
      dropRule env b.drop_location := by
  simp only [extractBookingInfo, updateTripDate_drop, updateGoods_drop,
    updateVehicleFallback_drop, updateVehicleTruck_drop, updateVehicleWindow_drop,
    updateBodyType_drop, updateLocations_drop]

theorem extract_vehicle (env : ExtractEnv) (text : String) (b : BookingData) :
    (extractBookingInfo env text b).vehicle_type =
      vehicleRule env (toLowerStr text) b.vehicle_type := by
  simp only [extractBookingInfo, vehicleRule, updateTripDate_vehicle, updateGoods_vehicle,
    updateVehicleFallback_vehicle, updateVehicleTruck_vehicle, updateVehicleWindow_vehicle,
    updateBodyType_vehicle, updateLocations_vehicle]

/-- Status after a user turn: extraction leaves it alone, then the
keyword detector acts (behind the empty-text guard). -/
theorem stepTurn_status_user (b : BookingData) (t : String) (env : ExtractEnv) :
    (stepTurn b (.userTurn t env)).confirmation_status =
      if trimStr t == "" then b.confirmation_status
      else detectStatus (toLowerStr t) b.confirmation_status := by
  simp only [stepTurn]
  split <;> simp [detectConfirmation_status, extract_status]

/-- Status after an assistant turn: extraction leaves it alone, then the
marker check forces `"confirmed"` unconditionally when present. -/
theorem stepTurn_status_assistant (b : BookingData) (t : String) (env : ExtractEnv) :
    (stepTurn b (.assistantTurn t env)).confirmation_status =
      if checkMarker t then "confirmed" else b.confirmation_status := by
  simp only [stepTurn]
  split <;> simp [extract_status]

/-- Trip date after a user turn. -/
theorem stepTurn_trip_user (b : BookingData) (t : String) (env : ExtractEnv) :
    (stepTurn b (.userTurn t env)).trip_date =
      if trimStr t == "" then b.trip_date
      else tripDateRule env.now (toLowerStr t) b.trip_date := by
  simp only [stepTurn]
  split <;> simp [detectConfirmation_trip, extract_trip]

/-- The keyword detector changes a status only away from `"pending"`,
and only to `"confirmed"` or `"not_interested"`. -/
theorem detectStatus_cases (tl st : String) :
    detectStatus tl st = st ∨
    (st = "pending" ∧
      (detectStatus tl st = "confirmed" ∨ detectStatus tl st = "not_interested")) := by
  simp only [detectStatus]
  by_cases h1 : (confirmationKeywords.any fun k => strHas tl k) = true
  · rw [if_pos h1]
    by_cases hb : (st == "pending") = true
    · have hst : st = "pending" := eq_of_beq hb
      rw [if_pos hb]
      by_cases h2 : (rejectionKeywords.any fun k => strHas tl k) = true
      · rw [if_pos h2]
        exact Or.inr ⟨hst, Or.inl rfl⟩
      · rw [if_neg h2]
        exact Or.inr ⟨hst, Or.inl rfl⟩
    · rw [if_neg hb]
      by_cases h2 : (rejectionKeywords.any fun k => strHas tl k) = true
      · rw [if_pos h2, if_neg hb]
        exact Or.inl rfl
      · rw [if_neg h2]
        exact Or.inl rfl
  · rw [if_neg h1]
    by_cases h2 : (rejectionKeywords.any fun k => strHas tl k) = true
    · rw [if_pos h2]
      by_cases hb : (st == "pending") = true
      · have hst : st = "pending" := eq_of_beq hb
        rw [if_pos hb]
        exact Or.inr ⟨hst, Or.inr rfl⟩
      · rw [if_neg hb]
        exact Or.inl rfl
    · rw [if_neg h2]
      exact Or.inl rfl

/-- The status `"confirmed"` is a fixed point of the keyword detector. -/
theorem detectStatus_confirmed (tl : String) :
    detectStatus tl "confirmed" = "confirmed" := by
  unfold detectStatus
  (repeat' split) <;> rfl

/-! ## Claim theorems -/

/-- Claim C1, counterexample: the user utterance `"no"` moves the status
from `"pending"` to `"not_interested"`, and a later generated reply
carrying the `BOOKING_CONFIRMED` marker moves it on to `"confirmed"` —
the status transitions twice and leaves `"not_interested"`, which the
claim rules out. -/
theorem c1_counterexample :
    (processTrace [TurnEvent.userTurn "no" (envAt dOct12)]
        initBooking).confirmation_status = "not_interested" ∧
    (processTrace [TurnEvent.userTurn "no" (envAt dOct12),
        TurnEvent.assistantTurn "Noted. BOOKING_CONFIRMED" (envAt dOct12)]
        initBooking).confirmation_status = "confirmed" := by
  constructor
  · show (stepTurn initBooking
      (TurnEvent.userTurn "no" (envAt dOct12))).confirmation_status = _
    rw [stepTurn_status_user]
    rfl
  · show (stepTurn (stepTurn initBooking (TurnEvent.userTurn "no" (envAt dOct12)))
      (TurnEvent.assistantTurn "Noted. BOOKING_CONFIRMED" (envAt dOct12))).confirmation_status = _
    rw [stepTurn_status_assistant]
    rfl

/-- Claim C1, amended: `confirmation_status` starts as `"pending"`;
keyword detection moves it only away from `"pending"`, to `"confirmed"`
or `"not_interested"`; a generated reply containing the
`BOOKING_CONFIRMED` marker forces `"confirmed"` regardless of the prior
status (so `"not_interested"` can still become `"confirmed"` through the
marker); `"confirmed"` is absorbing for every event and hence for every
whole trace. -/
theorem c1_amended :
    initBooking.confirmation_status = "pending" ∧
    (∀ (b : BookingData) (e : TurnEvent), b.confirmation_status = "confirmed" →
      (stepTurn b e).confirmation_status = "confirmed") ∧
    (∀ (es : List TurnEvent) (b : BookingData), b.confirmation_status = "confirmed" →
      (processTrace es b).confirmation_status = "confirmed") ∧
    (∀ (b : BookingData) (e : TurnEvent),
      (stepTurn b e).confirmation_status = b.confirmation_status ∨
      (b.confirmation_status = "pending" ∧
        ((stepTurn b e).confirmation_status = "confirmed" ∨
          (stepTurn b e).confirmation_status = "not_interested")) ∨
      ((stepTurn b e).confirmation_status = "confirmed" ∧
        ∃ t env2, e = TurnEvent.assistantTurn t env2 ∧ checkMarker t = true)) := by
  have habs : ∀ (b : BookingData) (e : TurnEvent), b.confirmation_status = "confirmed" →
      (stepTurn b e).confirmation_status = "confirmed" := by
    intro b e h
    cases e with
    | userTurn t env =>
      rw [stepTurn_status_user]
      split
      · exact h
      · rw [h]
        exact detectStatus_confirmed _
    | assistantTurn t env =>
      rw [stepTurn_status_assistant]
      split
      · rfl
      · exact h
  refine ⟨rfl, habs, ?_, ?_⟩
  · intro es
    induction es with
    | nil => intro b h; exact h
    | cons e es ih =>
      intro b h
      exact ih (stepTurn b e) (habs b e h)
  · intro b e
    cases e with
    | userTurn t env =>
      rw [stepTurn_status_user]
      split
      · exact Or.inl rfl
      · rcases detectStatus_cases (toLowerStr t) b.confirmation_status with h | ⟨hp, hc⟩
        · exact Or.inl h
        · exact Or.inr (Or.inl ⟨hp, hc⟩)
    | assistantTurn t env =>
      rw [stepTurn_status_assistant]
      split
      · rename_i hm
        exact Or.inr (Or.inr ⟨rfl, t, env, rfl, hm⟩)
      · exact Or.inl rfl

/-- Witness for the amended C1 at a concrete input: a record already
`"confirmed"` stays `"confirmed"` across a rejection-keyword utterance. -/
theorem c1_witness :
    (stepTurn { initBooking with confirmation_status := "confirmed" }
      (TurnEvent.userTurn "no" (envAt dOct12))).confirmation_status = "confirmed" :=
  c1_amended.2.1 _ _ rfl

/-- Claim C6, counterexample: after `stop_recording` on a state with one
buffered chunk the user artifact exists, but the in-memory chunk list is
not cleared — it still holds the chunk, while the claim says it is
empty. -/
theorem c6_counterexample :
    (stopRecording c6state).userWav = some ⟨1, 2, 16000, [1, 2]⟩ ∧
    (stopRecording c6state).user_audio_buffer ≠ [] := by
  constructor
  · rfl
  · decide

/-- Claim C6, amended: at capture-stop a non-empty frame log is flushed
to the user artifact (joined in order), the recorder is deactivated, and
the chunk list is left unchanged — it is cleared only by the next
`start_recording`. -/
theorem c6_amended (s : RecorderState) (h : s.user_audio_buffer ≠ []) :
    (stopRecording s).userWav = some ⟨1, 2, 16000, s.user_audio_buffer.flatten⟩ ∧
    (stopRecording s).user_audio_buffer = s.user_audio_buffer ∧
    (stopRecording s).recording_active = false ∧
    (startRecording (stopRecording s)).user_audio_buffer = [] := by
  simp [stopRecording, saveUserAudio, startRecording, h]

/-- Witness for the amended C6 at a concrete input. -/
theorem c6_witness :
    c6state.user_audio_buffer ≠ [] ∧
    (stopRecording c6state).user_audio_buffer = c6state.user_audio_buffer :=
  ⟨by decide, (c6_amended c6state (by decide)).2.1⟩

/-- Repeated `add_audio_chunk` calls against an active recorder append the chunks
in arrival order and touch nothing else. -/
theorem pushAll_spec : ∀ (cs : List (List Nat)) (s : RecorderState),
    s.recording_active = true →
    pushAll cs s = { s with user_audio_buffer := s.user_audio_buffer ++ cs }
  | [], s, h => by simp [pushAll]
  | c :: cs, s, h => by
    have h1 : addAudioChunk c s =
        { s with user_audio_buffer := s.user_audio_buffer ++ [c] } := by
      simp [addAudioChunk, h]
    have h2 := pushAll_spec cs
      { s with user_audio_buffer := s.user_audio_buffer ++ [c] } h
    simp only [pushAll, List.foldl_cons] at h2 ⊢
    rw [h1, h2]
    simp

/-- Length of a concatenation is the sum of the lengths. -/
theorem flatten_length_nat (l : List (List Nat)) :
    l.flatten.length = (l.map List.length).sum := by
  induction l with
  | nil => rfl
  | cons x xs ih => simp [ih]

/-- Claim C7: flushing after a sequence of pushes into an active buffer
writes the chunks concatenated in push order, so the artifact's frame
byte count is the sum of the pushed chunk lengths; flushing with zero
chunks changes nothing. -/
theorem c7_flush_concat (s : RecorderState) (cs : List (List Nat)) :
    (cs = [] → saveUserAudio (pushAll cs (startRecording s)) =
      pushAll cs (startRecording s)) ∧
    (cs ≠ [] →
      (saveUserAudio (pushAll cs (startRecording s))).userWav =
        some ⟨1, 2, 16000, cs.flatten⟩ ∧
      cs.flatten.length = (cs.map List.length).sum) := by
  have hp := pushAll_spec cs (startRecording s) rfl
  constructor
  · intro hnil
    subst hnil
    rw [hp]
    simp [saveUserAudio, startRecording]
  · intro hne
    rw [hp]
    exact ⟨by simp [saveUserAudio, startRecording, hne], flatten_length_nat cs⟩

/-- Witness for C7 at a concrete input: two chunks flush to their
concatenation, whose length is the sum of the chunk lengths. -/
theorem c7_witness :
    ([[1, 2], [3]] : List (List Nat)) ≠ [] ∧
    (saveUserAudio (pushAll [[1, 2], [3]] (startRecording ⟨[], false, none⟩))).userWav =
      some ⟨1, 2, 16000, [1, 2, 3]⟩ :=
  ⟨by decide, ((c7_flush_concat ⟨[], false, none⟩ [[1, 2], [3]]).2 (by decide)).1⟩

/-- Claim C8: `BookingData.__str__` reads `self.enquiry_details`, which
`__init__` never creates and no mutation path ever assigns, so
formatting any reachable record raises `AttributeError`, and the booking
summary printed at shutdown always fails. -/
theorem c8_str_always_fails (b : BookingData) :
    bookingStr b = Except.error "AttributeError" ∧
    printBookingSummary b = Except.error "AttributeError" :=
  ⟨rfl, rfl⟩

/-- Claim C2, failing input (code bug): with `trip_date` unset, the
utterance `"day after tomorrow"` sets `trip_date` to the current date
plus one day, not plus two — `"tomorrow"` is a substring of
`"day after tomorrow"`, so the `elif "tomorrow"` branch fires first and
the dedicated `day after tomorrow` branch (which would add two days) is
unreachable for that phrase.  The result holds for every fuzzy scorer. -/
theorem c2_day_after_tomorrow_bug (f g : String → String → Nat) :
    (extractBookingInfo
        { envAt dOct12 with
          scoreSub := f
          scoreFull := g }
        "day after tomorrow" initBooking).trip_date = some "2026-10-13" ∧
    toISO (addDays dOct12 2) = "2026-10-14" := by
  refine ⟨?_, by decide⟩
  rw [extract_trip]
  show tripDateRule dOct12 (toLowerStr "day after tomorrow") initBooking.trip_date
    = some "2026-10-13"
  decide

/-- Claim C10: keyword detection is plain substring containment, so any
utterance whose lowercased text contains `"now"` (also inside a word)
sets an unset `trip_date` to the current date; in particular `"not now"`
sets `trip_date` to today and, the rejection list containing both `"no"`
and `"not now"`, moves a pending status to `"not_interested"`. -/
theorem c10_now_substring (env : ExtractEnv) (b : BookingData) (text : String)
    (hb : b.trip_date = none) (hc : strHas (toLowerStr text) "now" = true) :
    (extractBookingInfo env text b).trip_date = some (toISO env.now) ∧
    (stepTurn initBooking
      (TurnEvent.userTurn "not now" (envAt env.now))).confirmation_status
      = "not_interested" ∧
    (stepTurn initBooking
      (TurnEvent.userTurn "not now" (envAt env.now))).trip_date
      = some (toISO env.now) := by
  refine ⟨?_, ?_, ?_⟩
  · rw [extract_trip, hb]
    simp [tripDateRule, optFalsy, hc]
  · rw [stepTurn_status_user]
    rfl
  · rw [stepTurn_trip_user]
    rfl

/-- Witness for C10 at a concrete input. -/
theorem c10_witness :
    initBooking.trip_date = none ∧
    strHas (toLowerStr "not now") "now" = true ∧
    (extractBookingInfo (envAt dOct12) "not now" initBooking).trip_date
      = some "2026-10-12" := by
  refine ⟨rfl, by decide, ?_⟩
  exact (c10_now_substring (envAt dOct12) initBooking "not now" rfl (by decide)).1

/-- Claim C3, counterexample: the utterance `"pickup x, drop y"` matches
the confirmation-style pattern with captures `("x", "y")` (the free-form
pattern does not match, the captured span cannot cross the comma), yet
`pickup_location` keeps its prior value `"Chennai"` instead of being
overwritten with `"X"`: the confirmation block only assigns when the
processed capture is longer than 2 characters. -/
theorem c3_counterexample :
    (extractBookingInfo envConfShort "pickup x, drop y"
      { initBooking with pickup_location := some "Chennai" }).pickup_location
      = some "Chennai" ∧
    ("Chennai" : String) ≠ "X" := by
  refine ⟨?_, by decide⟩
  rw [extract_pickup]
  rfl

/-- Claim C3, amended: the two location fields follow `pickupRule` and
`dropRule`: the free-form `from A to B` capture sets an unset/empty
field and otherwise overwrites only a strictly shorter value, and the
confirmation-style `pickup A, drop B` capture overwrites
unconditionally — but only when the trimmed, title-cased,
prefix-stripped capture is longer than 2 characters; a shorter capture
leaves the field (set or unset) to the free-form outcome. -/
theorem c3_amended (env : ExtractEnv) (text : String) (b : BookingData) :
    (extractBookingInfo env text b).pickup_location =
      pickupRule env b.pickup_location ∧
    (extractBookingInfo env text b).drop_location =
      dropRule env b.drop_location ∧
    (∀ g1 g2, env.confMatch = some (g1, g2) → strLen (confProc g1) > 2 →
      (extractBookingInfo env text b).pickup_location = some (confProc g1)) ∧
    (∀ g1 g2, env.confMatch = some (g1, g2) → strLen (confProc g2) > 2 →
      (extractBookingInfo env text b).drop_location = some (confProc g2)) := by
  refine ⟨extract_pickup env text b, extract_drop env text b, ?_, ?_⟩
  · intro g1 g2 hc hl
    rw [extract_pickup]
    have hne : confProc g1 ≠ "" := by
      intro e
      rw [e] at hl
      exact absurd hl (by decide)
    simp [pickupRule, hc, confUpd, hne, hl]
  · intro g1 g2 hc hl
    rw [extract_drop]
    have hne : confProc g2 ≠ "" := by
      intro e
      rw [e] at hl
      exact absurd hl (by decide)
    simp [dropRule, hc, confUpd, hne, hl]

/-- Witness for the amended C3 at the spec's own scenario: the
confirmation capture `"chennai"` overwrites the previously set
`"Sanit"`. -/
theorem c3_witness :
    envConfCities.confMatch = some ("chennai", "bangalore") ∧
    strLen (confProc "chennai") > 2 ∧
    (extractBookingInfo envConfCities "pickup in chennai, drop in bangalore"
      { initBooking with pickup_location := some "Sanit" }).pickup_location
      = some "Chennai" := by
  refine ⟨rfl, by decide, ?_⟩
  exact (c3_amended envConfCities "pickup in chennai, drop in bangalore"
    { initBooking with pickup_location := some "Sanit" }).2.2.1
    "chennai" "bangalore" rfl (by decide)

/-- Claim C4, counterexample: with `vehicle_type` already set to
`"Tata Ace"`, the utterance `"truck type bolero"` still runs the
explicit `truck type …` re-match — the source has no unset guard on that
block — and overwrites the field with `"Bolero"`; the claim says this
stage is attempted only when no candidate exists yet. -/
theorem c4_counterexample :
    (extractBookingInfo envTruck "truck type bolero" bTata).vehicle_type
      = some "Bolero" ∧
    ("Bolero" : String) ≠ "Tata Ace" := by
  refine ⟨?_, by decide⟩
  rw [extract_vehicle]
  rfl

/-- Claim C4, amended: `vehicle_type` is the composition of three
stages: the sliding-window fuzzy match applies only while the field is
unset/empty; the explicit `truck type …` re-match is attempted on every
utterance matching the pattern, regardless of the field's state, and a
successful fuzzy match (threshold 65) overwrites unconditionally; the
numeric `<N> feet` and literal `truck` fallbacks apply only if the field
is still unset/empty after both. -/
theorem c4_amended (env : ExtractEnv) (text : String) (b : BookingData) :
    (extractBookingInfo env text b).vehicle_type =
      fallbackStep env (toLowerStr text)
        (truckStep env (windowStep env (toLowerStr text) b.vehicle_type)) ∧
    (∀ old : Option String, optFalsy old = false →
      windowStep env (toLowerStr text) old = old) ∧
    (∀ old : Option String, optFalsy old = false →
      fallbackStep env (toLowerStr text) old = old) ∧
    (∀ (old : Option String) (v : String), truckScan env = some v → v ≠ "" →
      truckStep env old = some v) := by
  refine ⟨extract_vehicle env text b, ?_, ?_, ?_⟩
  · intro old h
    simp [windowStep, h]
  · intro old h
    simp [fallbackStep, h]
  · intro old v hscan hv
    simp [truckStep, hscan, hv]

/-- Witness for the amended C4 at a concrete input: the `truck type`
re-match scan returns `"Bolero"` and overwrites a set field. -/
theorem c4_witness :
    truckScan envTruck = some "Bolero" ∧
    truckStep envTruck (some "Tata Ace") = some "Bolero" := by
  refine ⟨rfl, ?_⟩
  exact (c4_amended envTruck "truck type bolero" bTata).2.2.2
    (some "Tata Ace") "Bolero" rfl (by decide)

/-- The reply loop succeeds when no registered file is
exists-but-undecodable, producing exactly the segments of
`replySegsOf`. -/
theorem mergeLoop_ok (fs : String → Option FileData) :
    ∀ rs : List String, (∀ p ∈ rs, fs p ≠ some .corrupt) →
      mergeLoop fs rs = .ok (replySegsOf fs rs) := by
  intro rs
  induction rs with
  | nil => intro _; rfl
  | cons p ps ih =>
    intro h
    have hp := h p (List.mem_cons_self p ps)
    have hps : ∀ q ∈ ps, fs q ≠ some .corrupt :=
      fun q hq => h q (List.mem_cons_of_mem p hq)
    simp only [mergeLoop, replySegsOf, List.flatMap_cons]
    cases hfp : fs p with
    | none =>
      have := ih hps
      simp only [replySegsOf] at this
      simp [this]
    | some fd =>
      cases fd with
      | corrupt => exact absurd hfp hp
      | audio a =>
        have := ih hps
        simp only [replySegsOf] at this
        simp [this]

/-- Counting reply segments in the loop's output counts the readable
artifacts. -/
theorem replyCount_replySegs (fs : String → Option FileData) (rs : List String) :
    replyCount (replySegsOf fs rs) = readableCount fs rs := by
  induction rs with
  | nil => rfl
  | cons p ps ih =>
    simp only [replySegsOf, readableCount, List.flatMap_cons, List.filter_cons] at ih ⊢
    cases hfp : fs p with
    | none => simpa using ih
    | some fd =>
      cases fd with
      | corrupt => simpa using ih
      | audio a =>
        simp only [replyCount, List.filter_append] at ih ⊢
        simp [ih]

/-- Claim C5, counterexample: with 3 registered replies of which the 2nd
exists but cannot be decoded, the merge does not skip it and continue —
the decode error aborts the whole merge, which returns no result instead
of a timeline with the 2 readable reply segments. -/
theorem c5_counterexample :
    mergeConversation fsCorrupt "user.wav" ["r1", "r2", "r3"] = none := by
  decide

/-- Claim C5, amended: replies are processed in registration order; a
reply whose artifact does not exist is skipped and the merge continues;
every readable artifact contributes exactly one reply segment preceded
by a 300 ms pause (so with 3 registered replies of which the 2nd is
absent the output has exactly 2 reply segments); but a reply artifact
that exists and fails to decode aborts the merge with no result. -/
theorem c5_amended (fs : String → Option FileData) (up : String) (rs : List String)
    (u : Nat) (hu : fs up = some (.audio u))
    (hn : ∀ p ∈ rs, fs p ≠ some .corrupt) :
    mergeConversation fs up rs =
      some ([Seg.silence 500, Seg.userSeg u] ++ replySegsOf fs rs ++
        [Seg.silence 500]) ∧
    replyCount ([Seg.silence 500, Seg.userSeg u] ++ replySegsOf fs rs ++
        [Seg.silence 500]) = readableCount fs rs := by
  constructor
  · simp only [mergeConversation, hu, mergeLoop_ok fs rs hn]
  · simp only [replyCount, List.filter_append, List.length_append]
    have := replyCount_replySegs fs rs
    simp only [replyCount] at this
    simp [this]

/-- Witness for the amended C5 at the claim's 3-reply scenario: the
absent 2nd artifact is skipped and the merged timeline holds exactly 2
reply segments. -/
theorem c5_witness :
    mergeConversation fsMissing "user.wav" ["r1", "r2", "r3"] =
      some [Seg.silence 500, Seg.userSeg 10, Seg.silence 300, Seg.replySeg 3,
        Seg.silence 300, Seg.replySeg 4, Seg.silence 500] ∧
    replyCount [Seg.silence 500, Seg.userSeg 10, Seg.silence 300, Seg.replySeg 3,
        Seg.silence 300, Seg.replySeg 4, Seg.silence 500] = 2 := by
  have h := c5_amended fsMissing "user.wav" ["r1", "r2", "r3"] 10 (by decide) (by decide)
  exact ⟨h.1, h.2⟩

/-- With `save_individual_files = false`, a synthesis call returns `""`
whatever the text and the provider outcome, and the flag never changes. -/
theorem synthesize_memory_path (st : TTSState) (text : String) (out : SynthOutcome)
    (h : st.save_individual_files = false) :
    (synthesize st text out).2 = "" ∧
    (synthesize st text out).1.save_individual_files = false := by
  simp only [synthesize]
  (repeat' split) <;> simp_all

/-- Replies synthesized in memory mode register no paths with the
recorder, across a whole call. -/
theorem processAll_no_responses :
    ∀ (turns : List (String × SynthOutcome)) (ag : AgentState),
      ag.tts.save_individual_files = false →
      (processAllReplies turns ag).assistant_responses = ag.assistant_responses ∧
      (processAllReplies turns ag).tts.save_individual_files = false
  | [], _, h => ⟨rfl, h⟩
  | t :: ts, ag, h => by
    have hs := synthesize_memory_path ag.tts t.1 t.2 h
    have hstep : (processReply ag t.1 t.2).assistant_responses =
        ag.assistant_responses ∧
        (processReply ag t.1 t.2).tts.save_individual_files = false :=
      ⟨by simp [processReply, hs.1], by simp [processReply, hs.2]⟩
    have ih := processAll_no_responses ts (processReply ag t.1 t.2) hstep.2
    simp only [processAllReplies, List.foldl_cons] at ih ⊢
    exact ⟨by rw [ih.1, hstep.1], ih.2⟩

/-- Claim C9: the TTS object `VoiceAgent` builds keeps
`save_individual_files` at its default `False`, so every successful
synthesis returns `""`; `process_user_input` therefore never registers
an assistant-reply path, and any merged conversation contains zero
assistant segments however many replies were synthesized. -/
theorem c9_no_assistant_segments (st : TTSState) (text : String) (o : SynthOutcome)
    (turns : List (String × SynthOutcome)) (fs : String → Option FileData)
    (up : String) (out : List Seg)
    (hflag : st.save_individual_files = false)
    (hm : mergeConversation fs up
      (processAllReplies turns ⟨ttsInit, []⟩).assistant_responses = some out) :
    (synthesize st text o).2 = "" ∧
    (processAllReplies turns ⟨ttsInit, []⟩).assistant_responses = [] ∧
    replyCount out = 0 := by
  have h2 := (processAll_no_responses turns ⟨ttsInit, []⟩ rfl).1
  refine ⟨(synthesize_memory_path st text o hflag).1, h2, ?_⟩
  rw [h2] at hm
  simp only [mergeConversation] at hm
  cases hfu : fs up with
  | none =>
    rw [hfu] at hm
    exact absurd hm (by simp)
  | some fd =>
    cases fd with
    | corrupt =>
      rw [hfu] at hm
      exact absurd hm (by simp)
    | audio u =>
      rw [hfu] at hm
      simp only [mergeLoop, Option.some.injEq] at hm
      rw [← hm]
      rfl

/-- Witness for C9 at a concrete input: two synthesized replies (one
success, one provider failure), no registered paths, and a merged
timeline with zero reply segments. -/
theorem c9_witness :
    ttsInit.save_individual_files = false ∧
    (synthesize ttsInit "Hello there" (SynthOutcome.success [5] "p1")).2 = "" ∧
    (processAllReplies [("Hello there", SynthOutcome.success [5] "p1"),
      ("Bye", SynthOutcome.failure)] ⟨ttsInit, []⟩).assistant_responses = [] ∧
    replyCount [Seg.silence 500, Seg.userSeg 7, Seg.silence 500] = 0 := by
  have hm : mergeConversation fsUserOnly "user.wav"
      (processAllReplies [("Hello there", SynthOutcome.success [5] "p1"),
        ("Bye", SynthOutcome.failure)] ⟨ttsInit, []⟩).assistant_responses
      = some [Seg.silence 500, Seg.userSeg 7, Seg.silence 500] := by decide
  have h := c9_no_assistant_segments ttsInit "Hello there"
    (SynthOutcome.success [5] "p1")
    [("Hello there", SynthOutcome.success [5] "p1"), ("Bye", SynthOutcome.failure)]
    fsUserOnly "user.wav" [Seg.silence 500, Seg.userSeg 7, Seg.silence 500] rfl hm
  exact ⟨rfl, h.1, h.2.1, h.2.2⟩

end VoiceAgent
